import Mathlib

/-!
Verification of the pyqsub module (pyqsub.py) against its specification.

The Python source is shallowly embedded: dictionaries become association
lists, Python values that can appear as option values become the `Value`
inductive, fallible code returns `Except PyError`, and the filesystem and
the external qsub process are modelled as explicit parameters (`FS`, the
`qsubOut` string).  Side effects of `submit` (file write, chmod, process
spawn, rename) are recorded as an explicit `Event` list.
-/

namespace Pyqsub

/-- Values a Python option dictionary can hold in pyqsub: strings, ints,
booleans and lists of strings (the shapes `make_optstr` distinguishes). -/
inductive Value where
  | str (s : String)
  | int (n : Int)
  | bool (b : Bool)
  | list (xs : List String)
deriving DecidableEq

/-- Errors raised by the embedded Python code. -/
inductive PyError where
  | typeError
  | userWarning
  | attributeError
  | keyError (k : String)
  | invalidPath (path : String)
deriving DecidableEq

/-- Splits a character list at every occurrence of `c`, the semantics of
Python's `str.split(c)` (structural recursion so that it evaluates in the
kernel, unlike `String.splitOn`). -/
def splitOnCharList (c : Char) : List Char → List (List Char)
  | [] => [[]]
  | x :: xs =>
    let r := splitOnCharList c xs
    if x == c then [] :: r
    else (x :: r.headI) :: r.tail

/-- Python `s.split(c)` on strings. -/
def pySplitStr (s : String) (c : Char) : List String :=
  (splitOnCharList c s.toList).map String.mk

/-- Python `s.split(c)[0]`: the part of `s` before the first `c`. -/
def splitHead (c : Char) (s : String) : String :=
  String.mk ((splitOnCharList c s.toList).headI)

/-- Python `s.lstrip(c)`: drop all leading copies of the character `c`. -/
def pyLstrip (s : String) (c : Char) : String :=
  String.mk (s.toList.dropWhile (fun x => x == c))

/-- Python `s.rstrip(c)`: drop all trailing copies of the character `c`. -/
def pyRstrip (s : String) (c : Char) : String :=
  String.mk ((s.toList.reverse.dropWhile (fun x => x == c)).reverse)

/-- Character membership in a character list (kernel-computable). -/
def charIn (c : Char) : List Char → Bool
  | [] => false
  | x :: xs => x == c || charIn c xs

/-- Python `c in s` for a character `c`. -/
def strContains (s : String) (c : Char) : Bool :=
  charIn c s.toList

/-- First `n` characters of a string, Python `s[:n]`. -/
def strTake (s : String) (n : Nat) : String :=
  String.mk (s.toList.take n)

/-- Python `'qsub' in key`: does `key` contain the substring `qsub`?
`hasSubList` checks list infixes by structural recursion. -/
def matchesAt (pat l : List Char) : Bool :=
  match pat, l with
  | [], _ => true
  | _ :: _, [] => false
  | p :: ps, x :: xs => p == x && matchesAt ps xs

/-- Does `pat` occur as a contiguous sublist of `l`? -/
def hasSubList (pat : List Char) : List Char → Bool
  | [] => matchesAt pat []
  | x :: xs => matchesAt pat (x :: xs) || hasSubList pat xs

/-- The check `'qsub' in key` from `make_optstr` (substring containment). -/
def containsQsub (key : String) : Bool :=
  hasSubList "qsub".toList key.toList

/-- An ASCII single quote, used by the Python `str` rendering of lists. -/
def squote : String := String.mk [Char.ofNat 39]

/-- Python `str()` applied to a `Value` (`str(True) = "True"`, lists render
with single-quoted elements as in CPython `repr`). -/
def pyStr : Value → String
  | .str s => s
  | .int n => toString n
  | .bool true => "True"
  | .bool false => "False"
  | .list xs =>
    "[" ++ String.intercalate ", " (xs.map (fun x => squote ++ x ++ squote)) ++ "]"

/-- Python truthiness of a `Value`. -/
def pyTruthy : Value → Bool
  | .str s => s != ""
  | .int n => n != 0
  | .bool b => b
  | .list xs => !xs.isEmpty

/-- Python `int()` applied to a `Value`; non-numeric input raises. -/
def pyInt : Value → Except PyError Int
  | .int n => .ok n
  | .bool b => .ok (if b then 1 else 0)
  | .str s =>
    match s.toInt? with
    | some n => .ok n
    | none => .error .typeError
  | .list _ => .error .typeError

/--
One pass of the loop body of `make_optstr` (pyqsub.py lines 93-103) for a
single key/value pair: `None` when the `elif` chain appends nothing.
The branches, in source order: skip keys containing `qsub`; a key mapped
to the empty flag emits `str(value)`; a list value emits
`flag=v1<delim>v2...`; a non-bool value emits `flag=str(value)`; a truthy
(bool) value emits the bare flag.
-/
def optTok (options_map : List (String × String)) (list_delimiter : String)
    (key : String) (v : Value) : Option String :=
  if containsQsub key then none
  else
    match options_map.lookup key with
    | none => none
    | some flag =>
      if flag.length == 0 then some (pyStr v)
      else
        match v with
        | .list xs => some (flag ++ "=" ++ String.intercalate list_delimiter xs)
        | .bool b => if b then some flag else none
        | v => some (flag ++ "=" ++ pyStr v)

/-- Embedding of `make_optstr(options, options_map, list_delimiter)`
(pyqsub.py lines 91-105): iterate the option mapping in order, append the
token chosen by the `elif` chain, and join with single spaces. -/
def make_optstr (options : List (String × Value)) (options_map : List (String × String))
    (list_delimiter : String) : String :=
  String.intercalate " " (options.filterMap (fun kv => optTok options_map list_delimiter kv.1 kv.2))

/-- Specification-side predicate: the keys of the option mapping that
actually contribute a token to `make_optstr` output, namely keys that do
not contain `qsub`, are present in the flag map, and whose value is not a
boolean false paired with a non-empty flag. -/
def eligibleKey (options_map : List (String × String)) (key : String) (v : Value) : Bool :=
  !containsQsub key &&
    match options_map.lookup key with
    | none => false
    | some flag => flag.length == 0 || !(v == Value.bool false)

/-- Specification-side renderer: the single token an eligible key
contributes to the option string. -/
def tokenFor (options_map : List (String × String)) (list_delimiter : String)
    (key : String) (v : Value) : String :=
  match options_map.lookup key with
  | none => ""
  | some flag =>
    if flag.length == 0 then pyStr v
    else
      match v with
      | .list xs => flag ++ "=" ++ String.intercalate list_delimiter xs
      | .bool _ => flag
      | v => flag ++ "=" ++ pyStr v

theorem optTok_eq_tokenFor (options_map : List (String × String)) (d key : String) (v : Value) :
    optTok options_map d key v =
      if eligibleKey options_map key v then some (tokenFor options_map d key v) else none := by
  unfold optTok eligibleKey tokenFor
  by_cases hq : containsQsub key
  · simp [hq]
  · rw [Bool.not_eq_true] at hq
    simp only [hq, Bool.false_eq_true, if_false, Bool.not_false, Bool.true_and]
    cases hl : options_map.lookup key with
    | none => simp
    | some flag =>
      by_cases hf : flag.length == 0
      · simp [hf]
      · cases v with
        | str s => simp [hf]
        | int n => simp [hf]
        | list xs => simp [hf]
        | bool b => cases b <;> simp [hf]

theorem filterMap_optTok (options_map : List (String × String)) (d : String)
    (options : List (String × Value)) :
    options.filterMap (fun kv => optTok options_map d kv.1 kv.2) =
      (options.filter (fun kv => eligibleKey options_map kv.1 kv.2)).map
        (fun kv => tokenFor options_map d kv.1 kv.2) := by
  have hfun : (fun kv : String × Value => optTok options_map d kv.1 kv.2) =
      (fun kv : String × Value =>
        if eligibleKey options_map kv.1 kv.2 then some (tokenFor options_map d kv.1 kv.2)
        else none) := by
    funext kv
    exact optTok_eq_tokenFor options_map d kv.1 kv.2
  rw [hfun]
  induction options with
  | nil => rfl
  | cons kv rest ih =>
    simp only [List.filterMap_cons, List.filter_cons]
    by_cases h : eligibleKey options_map kv.1 kv.2
    · simp [h, ih]
    · simp [h, ih]

theorem make_optstr_singleton (options_map : List (String × String)) (d key : String) (v : Value) :
    make_optstr [(key, v)] options_map d = (optTok options_map d key v).getD "" := by
  unfold make_optstr
  cases h : optTok options_map d key v with
  | none => simp [List.filterMap_cons, h, String.intercalate]
  | some t =>
    simp only [List.filterMap_cons, h, List.filterMap_nil, Option.getD_some]
    rfl

/-- C1 (amended): for every option mapping and flag mapping, the option
string built by `make_optstr` contains exactly one token per option-mapping
entry that is eligible (its key does not contain the substring `qsub`, is
present in the flag map, and its value is not a boolean false paired with a
non-empty flag), joined by single spaces in the OPTION mapping's iteration
order; all other entries contribute no token. -/
theorem make_optstr_tokens (options : List (String × Value))
    (options_map : List (String × String)) (d : String) :
    make_optstr options options_map d =
      String.intercalate " "
        ((options.filter (fun kv => eligibleKey options_map kv.1 kv.2)).map
          (fun kv => tokenFor options_map d kv.1 kv.2)) := by
  unfold make_optstr
  rw [filterMap_optTok]

/-- Concrete option mapping used to refute C1 as stated: key `a` carries a
boolean false, key `my_qsub` contains `qsub` without it being a leading
four-character tag, and iteration order (`c` before `b`) differs from the
flag map's order. -/
def optsCex : List (String × Value) :=
  [("c", Value.str "3"), ("a", Value.bool false), ("my_qsub", Value.str "9"), ("b", Value.str "2")]

/-- Flag map for the C1 counterexample; its iteration order is `a`, `b`,
`c`, `my_qsub`. -/
def mapCex : List (String × String) :=
  [("a", "--a"), ("b", "--b"), ("c", "--c"), ("my_qsub", "--q")]

/-- C1 (counterexample): on `optsCex` / `mapCex` the rendered option string
is `--c=3 --b=2`, which has 2 space-separated tokens, while 4 keys of the
option mapping are flag-mapped and do not carry a leading `qsub` tag; so
the output does not contain exactly one token per such key (the boolean
false key `a` and the substring-skipped key `my_qsub` emit nothing), and
the tokens follow the option mapping's order, not the flag map's. -/
theorem make_optstr_claim_cex :
    make_optstr optsCex mapCex "," = "--c=3 --b=2" ∧
    (pySplitStr (make_optstr optsCex mapCex ",") ' ').length = 2 ∧
    ((optsCex.map Prod.fst).filter
        (fun k => (mapCex.lookup k).isSome && !(strTake k 4 == "qsub"))).length = 4 ∧
    (pySplitStr (make_optstr optsCex mapCex ",") ' ').length ≠
      ((optsCex.map Prod.fst).filter
        (fun k => (mapCex.lookup k).isSome && !(strTake k 4 == "qsub"))).length := by
  refine ⟨by decide, by decide, by decide, by decide⟩

/-- C2: for an option key present in the flag map (and not containing
`qsub`), `make_optstr` renders the key by its value's shape: with a
non-empty flag, a list value gives `flag=v1<delim>v2...`, a string or
integer scalar gives `flag=value`, boolean true gives the bare flag and
boolean false gives nothing; a key whose flag-map entry is the empty
string emits `str(value)` alone, whatever the value. -/
theorem make_optstr_shapes (key flag d : String) (options_map : List (String × String))
    (hq : containsQsub key = false) (hl : options_map.lookup key = some flag) :
    ((flag.length == 0) = false →
      (∀ xs, make_optstr [(key, Value.list xs)] options_map d
          = flag ++ "=" ++ String.intercalate d xs) ∧
      (∀ s, make_optstr [(key, Value.str s)] options_map d = flag ++ "=" ++ s) ∧
      (∀ n : Int, make_optstr [(key, Value.int n)] options_map d = flag ++ "=" ++ toString n) ∧
      make_optstr [(key, Value.bool true)] options_map d = flag ∧
      make_optstr [(key, Value.bool false)] options_map d = "") ∧
    ((flag.length == 0) = true →
      ∀ v, make_optstr [(key, v)] options_map d = pyStr v) := by
  constructor
  · intro hf
    refine ⟨fun xs => ?_, fun s => ?_, fun n => ?_, ?_, ?_⟩ <;>
      simp [make_optstr_singleton, optTok, hq, hl, hf, pyStr]
  · intro hf v
    simp [make_optstr_singleton, optTok, hq, hl, hf]

/-- C2 witness: the sequence example from the spec, `{"files": ["a","b"]}`
with flag `--files` and delimiter `,` renders as `--files=a,b`, and a
boolean true renders as the bare flag. -/
theorem make_optstr_shapes_witness :
    make_optstr [("files", Value.list ["a", "b"])] [("files", "--files")] ","
        = "--files" ++ "=" ++ String.intercalate "," ["a", "b"] ∧
    make_optstr [("files", Value.bool true)] [("files", "--files")] "," = "--files" :=
  ⟨(((make_optstr_shapes "files" "--files" "," [("files", "--files")] rfl rfl).1 rfl).1) ["a", "b"],
   ((make_optstr_shapes "files" "--files" "," [("files", "--files")] rfl rfl).1 rfl).2.2.2.1⟩

mutual
/-- Values `isPath` consumes and produces: Python strings or (possibly
nested) lists thereof, mirroring that `isPath` maps lists elementwise and
that glob expansion returns lists. -/
inductive PathVal where
  | str (s : String)
  | list (xs : PathList)
/-- Lists of `PathVal` (a mutual inductive so that all recursions stay
structural and kernel-computable). -/
inductive PathList where
  | nil
  | cons (x : PathVal) (xs : PathList)
end

/-- View of a `PathList` as an ordinary `List PathVal`. -/
def PathList.toList : PathList → List PathVal
  | .nil => []
  | .cons x xs => x :: xs.toList

/-- Builds a `PathList` of strings, used for glob expansion results. -/
def ofStrs : List String → PathList
  | [] => .nil
  | s :: rest => .cons (.str s) (ofStrs rest)

/-- Filesystem model: `isPath` only queries existence, directory status,
absolute-path resolution (a pure function of the string and the process
working directory) and glob expansion; these are the four parameters. -/
structure FS where
  pathExists : String → Bool
  isDir : String → Bool
  abspath : String → String
  glob : String → List String

/-- Embedding of `os.path.split`: split at the final slash; the head keeps
its trailing slashes only when it consists solely of slashes. -/
def pySplit (p : String) : String × String :=
  let cs := p.toList
  let tail := (cs.reverse.takeWhile (fun c => c != '/')).reverse
  let head0 := cs.take (cs.length - tail.length)
  let head :=
    if head0.isEmpty || head0.all (fun c => c == '/') then head0
    else (head0.reverse.dropWhile (fun c => c == '/')).reverse
  (String.mk head, String.mk tail)

/--
Branches of `isPath` (pyqsub.py lines 73-90) that apply to a comma-free
string: empty strings are returned unchanged; a string with a wildcard
whose containing directory exists is glob-expanded to a list; a
wildcard-free string naming an existing entry becomes its absolute path,
with a trailing separator when it is a directory; anything else raises
`Path: "..." does not exist` (modelled as `PyError.invalidPath`).
-/
def isPathCore (fs : FS) (s : String) : Except PyError PathVal :=
  if s == "" then .ok (.str s)
  else if strContains s '*' && fs.pathExists (fs.abspath (pySplit s).1) then
    .ok (.list (ofStrs (fs.glob (fs.abspath (pySplit s).1 ++ "/" ++ (pySplit s).2))))
  else if !(strContains s '*') && fs.pathExists (fs.abspath s) then
    if fs.isDir (fs.abspath s) then .ok (.str (fs.abspath s ++ "/"))
    else .ok (.str (fs.abspath s))
  else .error (.invalidPath s)

/-- Sequential normalization of the comma-split parts (the loop at lines
78-79).  Each part is comma-free, so the recursive `isPath(f)` call in the
source reduces to the comma-free branches `isPathCore`. -/
def isPathParts (fs : FS) : List String → Except PyError PathList
  | [] => .ok .nil
  | f :: rest =>
    match isPathCore fs f with
    | .error e => .error e
    | .ok y =>
      match isPathParts fs rest with
      | .error e => .error e
      | .ok ys => .ok (.cons y ys)

/-- Embedding of `isPath` on a string argument (pyqsub.py lines 73-90):
empty strings pass through; a comma-containing string is stripped of
leading `[` and trailing `]` characters, split on commas and each part
normalized; otherwise the comma-free branches apply. -/
def isPathStr (fs : FS) (s : String) : Except PyError PathVal :=
  if s == "" then .ok (.str s)
  else if strContains s ',' then
    (isPathParts fs (pySplitStr (pyRstrip (pyLstrip s '[') ']') ',')).map PathVal.list
  else isPathCore fs s

mutual
/-- Embedding of `isPath` (pyqsub.py lines 68-90).  A list argument is
normalized elementwise — the source mutates `string[i]` in place and
returns the same list object, so the returned list IS the argument as the
caller sees it after the call. -/
def isPath (fs : FS) : PathVal → Except PyError PathVal
  | .list xs => (isPathList fs xs).map PathVal.list
  | .str s => isPathStr fs s
/-- Elementwise normalization of a list argument (lines 69-72). -/
def isPathList (fs : FS) : PathList → Except PyError PathList
  | .nil => .ok .nil
  | .cons x xs =>
    match isPath fs x with
    | .error e => .error e
    | .ok y =>
      match isPathList fs xs with
      | .error e => .error e
      | .ok ys => .ok (.cons y ys)
end

theorem splitOnCharList_ne_nil (c : Char) (l : List Char) : splitOnCharList c l ≠ [] := by
  cases l with
  | nil => simp [splitOnCharList]
  | cons x xs =>
    simp only [splitOnCharList]
    by_cases hx : x == c
    · simp [hx]
    · simp [hx]

theorem charIn_split (c : Char) :
    ∀ (l : List Char), ∀ p ∈ splitOnCharList c l, charIn c p = false := by
  intro l
  induction l with
  | nil =>
    intro p hp
    simp only [splitOnCharList, List.mem_singleton] at hp
    subst hp
    rfl
  | cons x xs ih =>
    intro p hp
    simp only [splitOnCharList] at hp
    by_cases hx : x == c
    · rw [if_pos hx] at hp
      rcases List.mem_cons.mp hp with h | h
      · subst h; rfl
      · exact ih p h
    · rw [if_neg hx] at hp
      rcases List.mem_cons.mp hp with h | h
      · subst h
        have hne := splitOnCharList_ne_nil c xs
        cases hr : splitOnCharList c xs with
        | nil => exact absurd hr hne
        | cons q qs =>
          have hq : q ∈ splitOnCharList c xs := by
            rw [hr]; exact List.mem_cons_self q qs
          have := ih q hq
          simp [charIn, hx, hr, this]
      · exact ih p (List.mem_of_mem_tail h)

theorem pySplitStr_no_comma (s : String) :
    ∀ f ∈ pySplitStr s ',', strContains f ',' = false := by
  intro f hf
  simp only [pySplitStr, List.mem_map] at hf
  obtain ⟨p, hp, rfl⟩ := hf
  exact charIn_split ',' s.toList p hp

theorem isPathStr_no_comma (fs : FS) (s : String) (h : strContains s ',' = false) :
    isPathStr fs s = isPathCore fs s := by
  by_cases he : s == ""
  · simp [isPathStr, isPathCore, he]
  · simp [isPathStr, he, h]

/-- Specification-side elementwise normalization: applies the full `isPath`
to each comma-split part, as the spec phrases it ("recursively normalizes
each element"). -/
def normEach (fs : FS) : List String → Except PyError PathList
  | [] => .ok .nil
  | f :: rest =>
    match isPath fs (.str f) with
    | .error e => .error e
    | .ok y =>
      match normEach fs rest with
      | .error e => .error e
      | .ok ys => .ok (.cons y ys)

theorem isPathParts_eq_normEach (fs : FS) :
    ∀ l : List String, (∀ f ∈ l, strContains f ',' = false) →
      isPathParts fs l = normEach fs l := by
  intro l
  induction l with
  | nil => intro _; rfl
  | cons f rest ih =>
    intro h
    have hf : isPath fs (PathVal.str f) = isPathCore fs f :=
      isPathStr_no_comma fs f (h f (List.mem_cons_self f rest))
    have hr := ih (fun g hg => h g (List.mem_cons_of_mem f hg))
    simp only [isPathParts, normEach, hf, hr]

/-- C7 (amended): the path normalizer returns an empty string unchanged; a
comma-containing string is stripped of leading `[` and trailing `]`
characters, split on commas, and each part is recursively normalized, the
results returned as a list; a non-empty comma-free wildcard-free string
whose absolute path names an existing directory yields that absolute path
with a trailing separator, an existing non-directory yields the absolute
path alone, and a non-existing one fails with the invalid-path error. -/
theorem isPath_cases (fs : FS) :
    (isPath fs (PathVal.str "") = Except.ok (PathVal.str "")) ∧
    (∀ s, strContains s ',' = true →
      isPath fs (PathVal.str s) =
        (normEach fs (pySplitStr (pyRstrip (pyLstrip s '[') ']') ',')).map PathVal.list) ∧
    (∀ s, (s == "") = false → strContains s ',' = false → strContains s '*' = false →
      fs.pathExists (fs.abspath s) = true → fs.isDir (fs.abspath s) = true →
      isPath fs (PathVal.str s) = Except.ok (PathVal.str (fs.abspath s ++ "/"))) ∧
    (∀ s, (s == "") = false → strContains s ',' = false → strContains s '*' = false →
      fs.pathExists (fs.abspath s) = true → fs.isDir (fs.abspath s) = false →
      isPath fs (PathVal.str s) = Except.ok (PathVal.str (fs.abspath s))) ∧
    (∀ s, (s == "") = false → strContains s ',' = false → strContains s '*' = false →
      fs.pathExists (fs.abspath s) = false →
      isPath fs (PathVal.str s) = Except.error (PyError.invalidPath s)) := by
  refine ⟨rfl, ?_, ?_, ?_, ?_⟩
  · intro s hs
    by_cases he : s == ""
    · exfalso
      rw [beq_iff_eq] at he
      subst he
      exact absurd hs (by decide)
    · show isPathStr fs s = _
      rw [isPathStr, if_neg (by simp [he]), if_pos hs,
        isPathParts_eq_normEach fs _ (pySplitStr_no_comma _)]
  · intro s he hc hw hex hdir
    show isPathStr fs s = _
    rw [isPathStr_no_comma fs s hc, isPathCore]
    simp [he, hc, hw, hex, hdir]
  · intro s he hc hw hex hdir
    show isPathStr fs s = _
    rw [isPathStr_no_comma fs s hc, isPathCore]
    simp [he, hc, hw, hex, hdir]
  · intro s he hc hw hex
    show isPathStr fs s = _
    rw [isPathStr_no_comma fs s hc, isPathCore]
    simp [he, hc, hw, hex]

/-- Concrete filesystem for witnesses and counterexamples: the only
existing entry is the directory `/d`; the working directory for
absolute-path resolution is `/cwd`. -/
def fs0 : FS where
  pathExists := fun s => s == "/d"
  isDir := fun s => s == "/d"
  abspath := fun s => if strTake s 1 == "/" then s else "/cwd/" ++ s
  glob := fun _ => []

/-- C7 witness: on `fs0`, the empty string passes through, the existing
directory `/d` becomes `/d/`, and the non-existing `/nope` raises the
invalid-path error. -/
theorem isPath_cases_witness :
    isPath fs0 (PathVal.str "") = Except.ok (PathVal.str "") ∧
    isPath fs0 (PathVal.str "/d") = Except.ok (PathVal.str "/d/") ∧
    isPath fs0 (PathVal.str "/nope") = Except.error (PyError.invalidPath "/nope") :=
  ⟨(isPath_cases fs0).1,
   by rw [(isPath_cases fs0).2.2.1 "/d" rfl rfl rfl rfl rfl]; rfl,
   (isPath_cases fs0).2.2.2.2 "/nope" rfl rfl rfl rfl⟩

/-- C7 (counterexample): on the comma-containing string `[/d,/d]` the code
first strips the bracket characters and returns the normalized list
`[/d/, /d/]`, whereas splitting the original string on commas as the claim
states would produce the parts `[/d` and `/d]`, both of which fail to
normalize — so the result is not the list obtained by normalizing the
comma-split parts of the input. -/
theorem isPath_bracket_cex :
    isPath fs0 (PathVal.str "[/d,/d]") =
      Except.ok (PathVal.list (PathList.cons (PathVal.str "/d/")
        (PathList.cons (PathVal.str "/d/") PathList.nil))) ∧
    isPath fs0 (PathVal.str "[/d") = Except.error (PyError.invalidPath "[/d") ∧
    isPath fs0 (PathVal.str "/d]") = Except.error (PyError.invalidPath "/d]") :=
  ⟨rfl, rfl, rfl⟩

theorem isPathList_forall2 (fs : FS) :
    ∀ (xs ys : PathList), isPathList fs xs = Except.ok ys →
      List.Forall₂ (fun x y => isPath fs x = Except.ok y) xs.toList ys.toList
  | .nil, ys, h => by
    simp only [isPathList] at h
    cases h
    exact List.Forall₂.nil
  | .cons x xs, ys, h => by
    simp only [isPathList] at h
    cases hx : isPath fs x with
    | error e => rw [hx] at h; cases h
    | ok y =>
      rw [hx] at h
      cases hl : isPathList fs xs with
      | error e => rw [hl] at h; cases h
      | ok ys2 =>
        rw [hl] at h
        cases h
        exact List.Forall₂.cons hx (isPathList_forall2 fs xs ys2 hl)

/-- C8 (amended): `isPath` performs no filesystem writes (the embedding
touches the filesystem only through the read-only `FS` queries), but it
does NOT leave a list argument unchanged: the source mutates the list in
place, so after the call the list (which is also the returned value) holds
the elementwise-normalized values — same length, element `i` the
normalization of the original element `i`. -/
theorem isPath_list_elems (fs : FS) (xs : PathList) (r : PathVal)
    (h : isPath fs (PathVal.list xs) = Except.ok r) :
    ∃ ys, r = PathVal.list ys ∧ ys.toList.length = xs.toList.length ∧
      List.Forall₂ (fun x y => isPath fs x = Except.ok y) xs.toList ys.toList := by
  have hl : isPath fs (PathVal.list xs) = (isPathList fs xs).map PathVal.list := rfl
  rw [hl] at h
  cases hys : isPathList fs xs with
  | error e => rw [hys] at h; cases h
  | ok ys =>
    rw [hys] at h
    cases h
    have hf := isPathList_forall2 fs xs ys hys
    exact ⟨ys, rfl, (List.Forall₂.length_eq hf).symm, hf⟩

/-- C8 witness: on `fs0`, normalizing the singleton list `[/d]` succeeds
and the resulting list is the elementwise normalization of the input. -/
theorem isPath_list_elems_witness :
    ∃ ys, PathVal.list (PathList.cons (PathVal.str "/d/") PathList.nil) = PathVal.list ys ∧
      ys.toList.length = (PathList.cons (PathVal.str "/d") PathList.nil).toList.length ∧
      List.Forall₂ (fun x y => isPath fs0 x = Except.ok y)
        (PathList.cons (PathVal.str "/d") PathList.nil).toList ys.toList :=
  isPath_list_elems fs0 (PathList.cons (PathVal.str "/d") PathList.nil)
    (PathVal.list (PathList.cons (PathVal.str "/d/") PathList.nil)) rfl

/-- C8 (counterexample): the list `['/d']` passed to `isPath` is NOT the
same sequence afterwards — the in-place assignment `string[i] = isPath(x)`
replaces the element, and the function returns that same mutated list, so
the caller's list now reads `['/d/']`. -/
theorem isPath_list_mutation_cex :
    isPath fs0 (PathVal.list (PathList.cons (PathVal.str "/d") PathList.nil)) =
      Except.ok (PathVal.list (PathList.cons (PathVal.str "/d/") PathList.nil)) ∧
    PathVal.list (PathList.cons (PathVal.str "/d/") PathList.nil) ≠
      PathVal.list (PathList.cons (PathVal.str "/d") PathList.nil) := by
  refine ⟨rfl, ?_⟩
  intro h
  injection h with h1
  injection h1 with h2 h3
  injection h2 with h4
  exact absurd h4 (by decide)

/-- Python truthiness of the `module_name` / `job_string` parameters: the
default `False` is `none`; a string is truthy when non-empty. -/
def truthyOpt : Option String → Bool
  | none => false
  | some s => s != ""

/-- Dictionary access `options[k]`: `KeyError` when the key is absent. -/
def pyGet (options : List (String × Value)) (k : String) : Except PyError Value :=
  match options.lookup k with
  | some v => .ok v
  | none => .error (.keyError k)

/-- String concatenation `str + value` demands a string operand, raising
`TypeError` otherwise. -/
def asStr : Value → Except PyError String
  | .str s => .ok s
  | _ => .error .typeError

/-- Coercion of a bool to an int, as Python arithmetic does. -/
def boolInt (b : Bool) : Int := if b then 1 else 0

/-- Python `s * n` string repetition (non-positive `n` gives `""`). -/
def strRepeat (s : String) (n : Int) : String :=
  String.join (List.replicate n.toNat s)

/-- Python `l * n` list repetition. -/
def listRepeat (xs : List String) (n : Int) : List String :=
  (List.replicate n.toNat xs).flatten

/-- Python `a * b` on option values (used for `nodes * ppn`). -/
def pyMul (a b : Value) : Except PyError Value :=
  match a, b with
  | .int x, .int y => .ok (.int (x * y))
  | .int x, .bool y => .ok (.int (x * boolInt y))
  | .bool x, .int y => .ok (.int (boolInt x * y))
  | .bool x, .bool y => .ok (.int (boolInt x * boolInt y))
  | .str s, .int n => .ok (.str (strRepeat s n))
  | .int n, .str s => .ok (.str (strRepeat s n))
  | .str s, .bool c => .ok (.str (strRepeat s (boolInt c)))
  | .bool c, .str s => .ok (.str (strRepeat s (boolInt c)))
  | .list xs, .int n => .ok (.list (listRepeat xs n))
  | .int n, .list xs => .ok (.list (listRepeat xs n))
  | .list xs, .bool c => .ok (.list (listRepeat xs (boolInt c)))
  | .bool c, .list xs => .ok (.list (listRepeat xs (boolInt c)))
  | _, _ => .error .typeError

/-- Job-id extraction of pyqsub.py line 145:
`out.rstrip('\n').split('.')[0]` — strip trailing newlines from the whole
output, then take everything before the first dot. -/
def pyJobId (out : String) : String :=
  splitHead '.' (pyRstrip out '\n')

/-- Observable side effects of `submit`, in program order: writing the
temp script, chmod-ing it, spawning the submission command, renaming. -/
inductive Event where
  | write (path content : String)
  | chmod (path : String)
  | spawn (cmd : List String)
  | rename (src dst : String)
deriving DecidableEq

/--
Embedding of the script rendering of `submit` (pyqsub.py lines 125-138).
Mirrors Python left-to-right evaluation: the unconditional
`module_name.split('.')[0]` raises `AttributeError` when `module_name` is
the default `False` (here `none`); dictionary accesses raise `KeyError`
for absent keys; string concatenation with a non-string scheduler value
(`qsub_q`, `qsub_M`, `qsub_m`) raises `TypeError`; a truthy `qsub_pmem`
value goes through `int()`.  Floats are outside the model: `qsub_pmem`
values in the claims are integers.
-/
def renderScript (options : List (String × Value)) (module_name job_string : Option String)
    (optstr : String) : Except PyError String := do
  let mod0 ←
    match module_name with
    | none => Except.error PyError.attributeError
    | some m => Except.ok (splitHead '.' m)
  let vN ← pyGet options "qsub_N"
  let vWt ← pyGet options "qsub_walltime"
  let s1 := "#!/bin/bash\n##" ++ mod0 ++ " qsub script\n#PBS -S /bin/sh\n#PBS -N " ++
    pyStr vN ++ "\n#PBS -l walltime=" ++ pyStr vWt ++ "\n"
  let vNodes ← pyGet options "qsub_nodes"
  let vPpn ← pyGet options "qsub_ppn"
  let s2 := s1 ++ "#PBS -V\n#PBS -l nodes=" ++ pyStr vNodes ++ ":ppn=" ++ pyStr vPpn ++ "\n"
  let vPmem ← pyGet options "qsub_pmem"
  let s3 ←
    if pyTruthy vPmem then do
      let i ← pyInt vPmem
      Except.ok (s2 ++ "#PBS -l pmem=" ++ toString i ++ "Gb\n")
    else Except.ok s2
  let vQ ← pyGet options "qsub_q"
  let sQ ← asStr vQ
  let s4 := s3 ++ "#PBS -q " ++ sQ ++ "\n"
  let vM ← pyGet options "qsub_M"
  let s5 ←
    if pyTruthy vM then do
      let sM ← asStr vM
      let vEm ← pyGet options "qsub_m"
      let sEm ← asStr vEm
      Except.ok (s4 ++ "#PBS -M " ++ sM ++ "\n#PBS -m " ++ sEm ++ "\n")
    else Except.ok s4
  if truthyOpt job_string then
    Except.ok (s5 ++ job_string.getD "")
  else do
    let s6 ←
      if pyTruthy ((options.lookup "qsub_mpi").getD (Value.bool false)) then do
        let dflt ← pyMul vNodes vPpn
        Except.ok (s5 ++ "mpirun -n " ++ pyStr ((options.lookup "qsub_np").getD dflt) ++ " ")
      else Except.ok s5
    Except.ok (s6 ++ "python -c \"import " ++ mod0 ++ "; " ++ mod0 ++
      ".__run__()\" " ++ optstr ++ "\n")

/--
Embedding of `submit` (pyqsub.py lines 106-146).  The external qsub
process is modelled by the `qsubOut` parameter, the captured standard
output of the submission command; side effects are returned as the
`Event` list, and the second component is the Python return value (`0`)
or the raised error.  Note that line 123 RAISES `UserWarning`, so an
empty `options_map` with a module name and no job string aborts the call;
line 140's `options['qsub_N'] + '_temp.pbs'` needs a string job name.
-/
def submit (options : List (String × Value)) (options_map : List (String × String))
    (module_name job_string : Option String) (list_delimiter : String) (qsubOut : String) :
    List Event × Except PyError Value :=
  if !truthyOpt module_name && !truthyOpt job_string then
    ([], Except.error PyError.typeError)
  else if !truthyOpt job_string && truthyOpt module_name && options_map.length == 0 then
    ([], Except.error PyError.userWarning)
  else
    match renderScript options module_name job_string
        (make_optstr options options_map list_delimiter) with
    | .error e => ([], Except.error e)
    | .ok script =>
      match pyGet options "qsub_N" with
      | .error e => ([], Except.error e)
      | .ok vN =>
        match asStr vN with
        | .error e => ([], Except.error e)
        | .ok name =>
          ([Event.write (name ++ "_temp.pbs") script,
            Event.chmod (name ++ "_temp.pbs"),
            Event.spawn ["qsub", name ++ "_temp.pbs"],
            Event.rename (name ++ "_temp.pbs") (name ++ ".p" ++ pyJobId qsubOut)],
           Except.ok (Value.int 0))

theorem splitOnCharList_headI (c : Char) :
    ∀ l : List Char, (splitOnCharList c l).headI = l.takeWhile (fun x => x != c) := by
  intro l
  induction l with
  | nil => rfl
  | cons x xs ih =>
    simp only [splitOnCharList]
    by_cases hx : x == c
    · rw [if_pos hx]
      simp [List.takeWhile_cons, bne, hx]
    · rw [if_neg hx]
      simp [List.takeWhile_cons, bne, hx, ih]

/-- Scheduler options with a zero memory request; job name `foo`. -/
def optsPmemZero : List (String × Value) :=
  [("qsub_N", .str "foo"), ("qsub_walltime", .str "24:00:00"), ("qsub_nodes", .int 1),
   ("qsub_ppn", .int 8), ("qsub_pmem", .int 0), ("qsub_q", .str "auto"),
   ("qsub_M", .bool false), ("qsub_m", .str "bae")]

/-- Scheduler options with a 2 Gb memory request; job name `foo`. -/
def optsPmem2 : List (String × Value) :=
  [("qsub_N", .str "foo"), ("qsub_walltime", .str "24:00:00"), ("qsub_nodes", .int 1),
   ("qsub_ppn", .int 8), ("qsub_pmem", .int 2), ("qsub_q", .str "auto"),
   ("qsub_M", .bool false), ("qsub_m", .str "bae")]

/-- Scheduler options with no `qsub_pmem` key at all. -/
def optsNoPmem : List (String × Value) :=
  [("qsub_N", .str "foo"), ("qsub_walltime", .str "24:00:00"), ("qsub_nodes", .int 1),
   ("qsub_ppn", .int 8), ("qsub_q", .str "auto"),
   ("qsub_M", .bool false), ("qsub_m", .str "bae")]

/-- C3 (amended): on a successful literal-command submission the script is
written to `<job-name>_temp.pbs`, made executable, submitted, and renamed
to `<job-name>.p<id>` where the job identifier is everything before the
first `.` of the WHOLE submission output after trimming trailing newlines
(for single-line output such as `12345.clusterhead\n` this is the token
before the first dot of the first line, here `12345`). -/
theorem submit_rename_jobid :
    (∀ out, submit optsPmemZero [] (some "mymod") (some "echo hi") "," out =
      ([Event.write "foo_temp.pbs"
          ("#!/bin/bash\n##mymod qsub script\n#PBS -S /bin/sh\n#PBS -N foo\n" ++
           "#PBS -l walltime=24:00:00\n#PBS -V\n#PBS -l nodes=1:ppn=8\n" ++
           "#PBS -q auto\necho hi"),
        Event.chmod "foo_temp.pbs",
        Event.spawn ["qsub", "foo_temp.pbs"],
        Event.rename "foo_temp.pbs" ("foo.p" ++ pyJobId out)],
       Except.ok (Value.int 0))) ∧
    pyJobId "12345.clusterhead\n" = "12345" ∧
    (∀ out, pyJobId out =
      String.mk ((pyRstrip out '\n').toList.takeWhile (fun c => c != '.'))) :=
  ⟨fun _ => rfl, rfl,
   fun out => congrArg String.mk (splitOnCharList_headI '.' (pyRstrip out '\n').toList)⟩

/-- C3 (counterexample): on the multi-line output `ab\nc.d\n` whose first
line contains no dot, the code renames the file to `foo.pab\nc` — the
prefix of the WHOLE trimmed output before its first dot, newline included —
not to `foo.pab` as the claim's "first line" reading would give. -/
theorem submit_rename_firstline_cex :
    (submit optsPmemZero [] (some "mymod") (some "echo hi") "," "ab\nc.d\n").1 =
      [Event.write "foo_temp.pbs"
        ("#!/bin/bash\n##mymod qsub script\n#PBS -S /bin/sh\n#PBS -N foo\n" ++
         "#PBS -l walltime=24:00:00\n#PBS -V\n#PBS -l nodes=1:ppn=8\n" ++
         "#PBS -q auto\necho hi"),
       Event.chmod "foo_temp.pbs",
       Event.spawn ["qsub", "foo_temp.pbs"],
       Event.rename "foo_temp.pbs" "foo.pab\nc"] ∧
    ("foo.pab\nc" : String) ≠ "foo.pab" :=
  ⟨rfl, by decide⟩

/-- C4: calling `submit` with neither a (truthy) module name nor a
(truthy) job string raises `TypeError` immediately: no script is rendered,
no event — in particular no file write — is produced. -/
theorem submit_no_target_typeError (options : List (String × Value))
    (options_map : List (String × String)) (module_name job_string : Option String)
    (d out : String) (hm : truthyOpt module_name = false) (hj : truthyOpt job_string = false) :
    submit options options_map module_name job_string d out =
      ([], Except.error PyError.typeError) := by
  unfold submit
  rw [hm, hj]
  rfl

/-- C4 witness: the fully-default call fails with `TypeError` and an empty
event trace. -/
theorem submit_no_target_typeError_witness :
    submit [] [] none none "," "" = ([], Except.error PyError.typeError) :=
  submit_no_target_typeError [] [] none none "," "" rfl rfl

/-- C5 (code behaviour): with a module name, no job string and an empty
flag map, line 123's `raise UserWarning(...)` ABORTS the call before any
rendering or writing (empty event trace), instead of warning and
proceeding as the spec describes. -/
theorem submit_empty_map_userWarning (options : List (String × Value))
    (m d out : String) (hm : (m != "") = true) :
    submit options [] (some m) none d out = ([], Except.error PyError.userWarning) := by
  have h1 : truthyOpt (some m) = true := hm
  unfold submit
  rw [h1]
  rfl

/-- C5 witness: the concrete call with module name `foo` and empty map
aborts with `UserWarning`. -/
theorem submit_empty_map_userWarning_witness :
    submit [] [] (some "foo") none "," "" = ([], Except.error PyError.userWarning) :=
  submit_empty_map_userWarning [] "foo" "," "" rfl

/-- C6 (amended): memory value 2 puts the directive line
`#PBS -l pmem=2Gb` in the script between the resource block and the queue
line; memory value 0 yields the same script without that line; but a
MISSING `qsub_pmem` key raises `KeyError` (no script, no write) rather
than producing a script without the memory line. -/
theorem submit_pmem_lines : ∀ out,
    submit optsPmem2 [] (some "foo") (some "echo hi") "," out =
      ([Event.write "foo_temp.pbs"
          ("#!/bin/bash\n##foo qsub script\n#PBS -S /bin/sh\n#PBS -N foo\n" ++
           "#PBS -l walltime=24:00:00\n#PBS -V\n#PBS -l nodes=1:ppn=8\n" ++
           "#PBS -l pmem=2Gb\n" ++ "#PBS -q auto\necho hi"),
        Event.chmod "foo_temp.pbs", Event.spawn ["qsub", "foo_temp.pbs"],
        Event.rename "foo_temp.pbs" ("foo.p" ++ pyJobId out)], Except.ok (Value.int 0)) ∧
    submit optsPmemZero [] (some "foo") (some "echo hi") "," out =
      ([Event.write "foo_temp.pbs"
          ("#!/bin/bash\n##foo qsub script\n#PBS -S /bin/sh\n#PBS -N foo\n" ++
           "#PBS -l walltime=24:00:00\n#PBS -V\n#PBS -l nodes=1:ppn=8\n" ++
           "#PBS -q auto\necho hi"),
        Event.chmod "foo_temp.pbs", Event.spawn ["qsub", "foo_temp.pbs"],
        Event.rename "foo_temp.pbs" ("foo.p" ++ pyJobId out)], Except.ok (Value.int 0)) ∧
    submit optsNoPmem [] (some "foo") (some "echo hi") "," out =
      ([], Except.error (PyError.keyError "qsub_pmem")) :=
  fun _ => ⟨rfl, rfl, rfl⟩

/-- C6 (counterexample): with the `qsub_pmem` key absent, `submit` does
not produce a script lacking the memory line — line 128's
`options['qsub_pmem']` raises `KeyError` and nothing is written at all. -/
theorem submit_pmem_absent_keyError :
    submit optsNoPmem [] (some "foo") (some "echo hi") "," "12345.clusterhead\n" =
      ([], Except.error (PyError.keyError "qsub_pmem")) := rfl

theorem submit_none_eq (options : List (String × Value))
    (options_map : List (String × String)) (job_string : Option String) (d out : String) :
    submit options options_map none job_string d out =
      ([], Except.error (if truthyOpt job_string then PyError.attributeError
        else PyError.typeError)) := by
  cases job_string with
  | none => rfl
  | some s =>
    by_cases hs : (s != "") = true
    · have h1 : truthyOpt (some s) = true := hs
      unfold submit
      rw [h1]
      rfl
    · rw [Bool.not_eq_true] at hs
      have h1 : truthyOpt (some s) = false := hs
      unfold submit
      rw [h1]
      rfl

/-- C9 (amended): every successful `submit` call returns the Python
integer 0 (line 146 `return 0`); the job identifier extracted from the
output is used only in the rename, not as the return value. -/
theorem submit_returns_zero (options : List (String × Value))
    (options_map : List (String × String)) (module_name job_string : Option String)
    (d out : String) (r : Value)
    (h : (submit options options_map module_name job_string d out).2 = Except.ok r) :
    r = Value.int 0 := by
  unfold submit at h
  split at h
  · simp at h
  · split at h
    · simp at h
    · split at h
      · simp at h
      · split at h
        · simp at h
        · split at h
          · simp at h
          · simp at h
            exact h.symm

/-- C9 witness: a concrete successful submission returns `0`. -/
theorem submit_returns_zero_witness :
    (submit optsPmem2 [] (some "foo") (some "echo hi") "," "12345.clusterhead\n").2 =
      Except.ok (Value.int 0) ∧ Value.int 0 = Value.int 0 :=
  ⟨rfl, submit_returns_zero optsPmem2 [] (some "foo") (some "echo hi") ","
    "12345.clusterhead\n" (Value.int 0) rfl⟩

/-- C9 (counterexample): on output `12345.clusterhead\n` the extracted job
identifier is `12345`, yet the successful call returns the integer 0, not
that identifier. -/
theorem submit_returns_zero_cex :
    (submit optsPmem2 [] (some "foo") (some "echo hi") "," "12345.clusterhead\n").2 =
      Except.ok (Value.int 0) ∧
    pyJobId "12345.clusterhead\n" = "12345" ∧
    (Except.ok (Value.int 0) : Except PyError Value) ≠ Except.ok (Value.str "12345") :=
  ⟨rfl, rfl, by intro h; injection h with h1; exact Value.noConfusion h1⟩

/-- C10: when a (truthy) job string is supplied but `module_name` is the
default `False`, the initial configuration check passes and the call then
raises `AttributeError` during script rendering (line 126's unconditional
`module_name.split`), producing no events; consequently every successful
`submit` call has a string module name. -/
theorem submit_module_name_required :
    (∀ (options : List (String × Value)) (options_map : List (String × String))
        (job_string : Option String) (d out : String), truthyOpt job_string = true →
      submit options options_map none job_string d out =
        ([], Except.error PyError.attributeError)) ∧
    (∀ (options : List (String × Value)) (options_map : List (String × String))
        (module_name job_string : Option String) (d out : String) (r : Value),
      (submit options options_map module_name job_string d out).2 = Except.ok r →
      ∃ m, module_name = some m) := by
  constructor
  · intro options options_map js d out hj
    rw [submit_none_eq, hj]
    rfl
  · intro options options_map mn js d out r h
    cases mn with
    | some m => exact ⟨m, rfl⟩
    | none =>
      rw [submit_none_eq] at h
      simp at h

/-- C10 witness: submitting the literal command `echo hi` with
`module_name` left as `False` raises `AttributeError` with no events. -/
theorem submit_module_name_required_witness :
    submit [] [] none (some "echo hi") "," "" =
      ([], Except.error PyError.attributeError) :=
  submit_module_name_required.1 [] [] (some "echo hi") "," "" rfl

end Pyqsub
